import Mathlib

/-!
Shallow embedding of the transaction simulator's orchestration core
(src/src/simulation.rs): the chain resolver, the value normalizer, the
response assembler, and the single / bundle simulation entry points.

The execution context (`Evm`, defined outside the provided sources) is
modelled as an abstract engine record, following the Execution Context
contract of the specification: construction, a read-only call primitive
and a state-committing call primitive, both fallible.

Machine integers are modelled as `Nat`; the 256-bit overflow checks of
the value parsers are explicit (`2 ^ 256` bounds), mirroring the
`uint` crate's `from_str` (hex, at most 64 hex digits) and
`from_dec_str` (decimal, overflow-checked accumulate).
-/

set_option autoImplicit false

namespace TxSim

/-- Addresses are passed through opaquely; modelled as `Nat`. -/
abbrev Address := Nat

/-- Call data bytes, passed through opaquely. -/
abbrev Bytes := List Nat

/-- An emitted log entry, passed through opaquely. -/
abbrev Log := Nat

/-- The execution engine's exit-status code (revm `Return`), passed through opaquely. -/
abbrev ExitReason := Nat

/-- foundry's `CallKind`: the kind of a call frame. -/
inductive CallKind where
  | Call
  | StaticCall
  | CallCode
  | DelegateCall
  | Create
  | Create2
deriving DecidableEq

/-- One node of the engine's raw call-trace arena, restricted to the
fields the response assembler reads. -/
structure CallTraceNode where
  kind : CallKind
  caller : Address
  callee : Address
  value : Nat
deriving DecidableEq

/-- foundry's `CallTraceArena`: the raw trace, an ordered arena of nodes.
Its `Default` is the empty arena. -/
structure CallTraceArena where
  arena : List CallTraceNode
deriving DecidableEq

/-- `SimulationRequest` (simulation.rs). `from` is a Lean keyword, hence `from_`. -/
structure SimulationRequest where
  chain_id : Nat
  from_ : Address
  to_ : Address
  data : Option Bytes
  gas_limit : Nat
  value : Option String
  block_number : Option Nat
  format_trace : Option Bool
deriving DecidableEq

/-- `CallTrace` (simulation.rs): one flattened trace record. -/
structure CallTrace where
  call_type : CallKind
  from_ : Address
  to_ : Address
  value : Nat
deriving DecidableEq

/-- `SimulationResponse` (simulation.rs). -/
structure SimulationResponse where
  simulation_id : Nat
  gas_used : Nat
  block_number : Nat
  success : Bool
  trace : List CallTrace
  formatted_trace : Option String
  logs : List Log
  exit_reason : ExitReason
deriving DecidableEq

/-- The service's rejection values. The first five are the custom
rejections imported by simulation.rs from the crate's errors module;
`ForkInitializationError` and `StateFetchError` model the
infrastructure failures the spec's Execution Context contract may
surface; `EngineError` stands for any other engine-level failure. -/
inductive Rejection where
  | FromHexError
  | FromDecStrError
  | MultipleChainIdsError
  | MultipleBlockNumbersError
  | NoURLForChainIdError
  | ForkInitializationError
  | StateFetchError
  | EngineError (code : Nat)
deriving DecidableEq

/-- The configuration consumed by the orchestrator (config.rs, outside
the provided sources): the provider credential and the optional
chain-explorer credential. -/
structure Config where
  alchemy_key : String
  etherscan_key : Option String
deriving DecidableEq

/-- Decidable equality for `Except`, used to evaluate the embedded
functions on concrete inputs. -/
instance {ε α : Type} [DecidableEq ε] [DecidableEq α] : DecidableEq (Except ε α)
  | Except.ok a, Except.ok b =>
    if h : a = b then isTrue (by rw [h]) else isFalse (by intro he; cases he; exact h rfl)
  | Except.ok _, Except.error _ => isFalse (by intro h; cases h)
  | Except.error _, Except.ok _ => isFalse (by intro h; cases h)
  | Except.error e, Except.error f =>
    if h : e = f then isTrue (by rw [h]) else isFalse (by intro he; cases he; exact h rfl)

/-! ### Value parsing (the `uint` crate primitives used by `run`) -/

/-- Errors of the `uint` crate's hex `FromStr`. -/
inductive FromHexErr where
  | InvalidHexCharacter
  | InvalidStringLength
deriving DecidableEq

/-- Errors of the `uint` crate's `from_dec_str`. -/
inductive FromDecStrErr where
  | InvalidCharacter
  | InvalidLength
deriving DecidableEq

/-- Value of a hexadecimal digit character, accepting both cases. -/
def hexDigit? (c : Char) : Option Nat :=
  if '0' ≤ c ∧ c ≤ '9' then some (c.toNat - Char.toNat '0')
  else if 'a' ≤ c ∧ c ≤ 'f' then some (c.toNat - Char.toNat 'a' + 10)
  else if 'A' ≤ c ∧ c ≤ 'F' then some (c.toNat - Char.toNat 'A' + 10)
  else none

/-- Value of a decimal digit character. -/
def decDigit? (c : Char) : Option Nat :=
  if '0' ≤ c ∧ c ≤ '9' then some (c.toNat - Char.toNat '0') else none

/-- Positional hexadecimal accumulation over a digit-character list;
fails on the first non-hex character. -/
def hexDigits (cs : List Char) : Except FromHexErr Nat :=
  cs.foldlM
    (fun acc c =>
      match hexDigit? c with
      | some d => Except.ok (acc * 16 + d)
      | none => Except.error FromHexErr.InvalidHexCharacter)
    0

/-- The `uint` crate's `U256::from_str`: strip one lowercase `0x`
prefix if present, reject more than 64 hex digits (the 256-bit bound),
then hex-decode; odd lengths are zero-padded, which positional
accumulation renders exactly. -/
def uint_from_str (s : String) : Except FromHexErr Nat :=
  let cs :=
    match s.data with
    | '0' :: 'x' :: rest => rest
    | l => l
  if cs.length > 64 then Except.error FromHexErr.InvalidStringLength
  else hexDigits cs

/-- Positional decimal accumulation over a digit-character list,
rejecting non-digits (`InvalidCharacter`) and 256-bit overflow
(`InvalidLength`). -/
def decDigits (cs : List Char) : Except FromDecStrErr Nat :=
  cs.foldlM
    (fun acc c =>
      match decDigit? c with
      | some d =>
        if acc * 10 + d < 2 ^ 256 then Except.ok (acc * 10 + d)
        else Except.error FromDecStrErr.InvalidLength
      | none => Except.error FromDecStrErr.InvalidCharacter)
    0

/-- The `uint` crate's `U256::from_dec_str`: decimal accumulate over
the string's characters. -/
def uint_from_dec_str (s : String) : Except FromDecStrErr Nat :=
  decDigits s.data

/-- Rust's `value.starts_with("0x")`: an exact, case-sensitive match
on the two leading characters. -/
def starts_with_0x (s : String) : Bool :=
  match s.data with
  | '0' :: 'x' :: _ => true
  | _ => false

/-- The value-normalization block at the top of `run`: absent value
stays absent; a present string starting with `0x` is parsed as hex
(failure mapped to the `FromHexError` rejection); any other present
string is parsed as decimal (failure mapped to `FromDecStrError`). -/
def parse_value : Option String → Except Rejection (Option Nat)
  | none => Except.ok none
  | some v =>
    if starts_with_0x v then
      match uint_from_str v with
      | Except.ok n => Except.ok (some n)
      | Except.error _ => Except.error Rejection.FromHexError
    else
      match uint_from_dec_str v with
      | Except.ok n => Except.ok (some n)
      | Except.error _ => Except.error Rejection.FromDecStrError

/-! ### Chain resolver -/

/-- `chain_id_to_fork_url` (simulation.rs): static table from chain
identifier to fork endpoint URL; unknown identifiers are rejected with
`NoURLForChainIdError`. -/
def chain_id_to_fork_url (chain_id : Nat) (alchemy_key : String) : Except Rejection String :=
  match chain_id with
  | 1 => Except.ok ("https://eth-mainnet.g.alchemy.com/v2/" ++ alchemy_key)
  | 5 => Except.ok ("https://eth-goerli.g.alchemy.com/v2/" ++ alchemy_key)
  | 137 => Except.ok ("https://polygon-mainnet.g.alchemy.com/v2/" ++ alchemy_key)
  | 80001 => Except.ok ("https://polygon-mumbai.g.alchemy.com/v2/" ++ alchemy_key)
  | 43114 => Except.ok ("https://api.avax.network/ext/bc/C/rpc")
  | 43113 => Except.ok ("https://api.avax-test.network/ext/bc/C/rpc")
  | 250 => Except.ok ("https://rpcapi.fantom.network/")
  | 4002 => Except.ok ("https://rpc.testnet.fantom.network/")
  | 100 => Except.ok ("https://rpc.xdaichain.com/")
  | 56 => Except.ok ("https://bsc-dataseed.binance.org/")
  | 97 => Except.ok ("https://data-seed-prebsc-1-s1.binance.org:8545/")
  | 42161 => Except.ok ("https://arb1.arbitrum.io/rpc")
  | 421613 => Except.ok ("https://goerli-rollup.arbitrum.io/rpc")
  | 10 => Except.ok ("https://mainnet.optimism.io/")
  | 420 => Except.ok ("https://goerli.optimism.io/")
  | _ => Except.error Rejection.NoURLForChainIdError

/-- The chain identifiers carried by the resolver's table. -/
def supported_chain_ids : List Nat :=
  [1, 5, 137, 80001, 43114, 43113, 250, 4002, 100, 56, 97, 42161, 421613, 10, 420]

/-! ### The execution context (Evm) contract -/

/-- The outcome record returned by the engine's call primitives
(`CallRawResult`, read field-by-field by the response assembler). -/
structure CallRawResult where
  gas_used : Nat
  block_number : Nat
  success : Bool
  trace : Option CallTraceArena
  logs : List Log
  exit_reason : ExitReason
  formatted_trace : Option String
deriving DecidableEq

/-- Modelled from the spec: the Execution Context (`Evm` in evm.rs,
outside the provided sources), abstracted over its state type `σ`.
`new` mirrors `Evm::new(None, fork_url, block_number, gas_limit, true,
etherscan_key)`; `call_raw` is the read-only primitive (it returns no
successor state: per the spec it never mutates the context's
persistent state); `call_raw_committing` is the state-committing
primitive, returning the successor state observed by later calls on
the same context. Both may fail with an infrastructure rejection. -/
structure Engine (σ : Type) where
  new : Option String → String → Option Nat → Nat → Bool → Option String → σ
  call_raw : σ → Address → Address → Option Nat → Option Bytes → Bool →
    Except Rejection CallRawResult
  call_raw_committing : σ → Address → Address → Option Nat → Option Bytes → Nat → Bool →
    Except Rejection (CallRawResult × σ)

/-- Modelled from the spec: `CallTrace::from` on an arena node (the
`From` impl lives outside the provided sources); per the data model it
extracts the call kind, the caller, the callee and the transferred
value of the frame, fabricating nothing. -/
def CallTrace.fromNode (n : CallTraceNode) : CallTrace :=
  { call_type := n.kind, from_ := n.caller, to_ := n.callee, value := n.value }

/-- The response-assembly tail of `run`: the flattening
`result.trace.unwrap_or_default().arena.into_iter().map(CallTrace::from).collect()`
plus the field-by-field pass-through, with `simulation_id` fixed at 1. -/
def assemble_response (result : CallRawResult) : SimulationResponse :=
  { simulation_id := 1
    gas_used := result.gas_used
    block_number := result.block_number
    success := result.success
    trace := (result.trace.getD ⟨[]⟩).arena.map CallTrace.fromNode
    formatted_trace := result.formatted_trace
    logs := result.logs
    exit_reason := result.exit_reason }

/-! ### The orchestrator -/

/-- `run` (simulation.rs): normalize the value, invoke the committing
or the read-only primitive according to `commit`, and assemble the
response. In the read-only branch the context state is returned
unchanged. -/
def run {σ : Type} (engine : Engine σ) (evm : σ) (transaction : SimulationRequest)
    (commit : Bool) : Except Rejection (SimulationResponse × σ) :=
  match parse_value transaction.value with
  | Except.error e => Except.error e
  | Except.ok value =>
    if commit then
      match engine.call_raw_committing evm transaction.from_ transaction.to_ value
          transaction.data transaction.gas_limit (transaction.format_trace.getD false) with
      | Except.error e => Except.error e
      | Except.ok (result, evm2) => Except.ok (assemble_response result, evm2)
    else
      match engine.call_raw evm transaction.from_ transaction.to_ value
          transaction.data (transaction.format_trace.getD false) with
      | Except.error e => Except.error e
      | Except.ok result => Except.ok (assemble_response result, evm)

/-- The observable outcome of an entry point: a structured rejection,
a reply, or a panic (Rust's out-of-bounds indexing aborts the task
without producing a structured rejection). -/
inductive SimOutcome (α : Type) where
  | panic
  | err (e : Rejection)
  | ok (a : α)
deriving DecidableEq

/-- `simulate` (simulation.rs): resolve the fork URL, construct one
execution context, run the transaction without committing, reply. -/
def simulate {σ : Type} (engine : Engine σ) (transaction : SimulationRequest)
    (config : Config) : SimOutcome SimulationResponse :=
  match chain_id_to_fork_url transaction.chain_id config.alchemy_key with
  | Except.error e => SimOutcome.err e
  | Except.ok fork_url =>
    let evm := engine.new none fork_url transaction.block_number transaction.gas_limit
      true config.etherscan_key
    match run engine evm transaction false with
    | Except.error e => SimOutcome.err e
    | Except.ok (response, _) => SimOutcome.ok response

/-- The `for transaction in transactions` loop of `simulate_bundle`:
each element is first checked against the first element's chain
identifier, then against its block number, then executed committing;
any rejection aborts the remainder; responses accumulate in order. -/
def bundle_loop {σ : Type} (engine : Engine σ) (first_chain_id : Nat)
    (first_block_number : Option Nat) :
    σ → List SimulationRequest → SimOutcome (List SimulationResponse)
  | _, [] => SimOutcome.ok []
  | evm, transaction :: rest =>
    if transaction.chain_id ≠ first_chain_id then
      SimOutcome.err Rejection.MultipleChainIdsError
    else if transaction.block_number ≠ first_block_number then
      SimOutcome.err Rejection.MultipleBlockNumbersError
    else
      match run engine evm transaction true with
      | Except.error e => SimOutcome.err e
      | Except.ok (response, evm2) =>
        match bundle_loop engine first_chain_id first_block_number evm2 rest with
        | SimOutcome.ok responses => SimOutcome.ok (response :: responses)
        | other => other

/-- `simulate_bundle` (simulation.rs): read the bundle parameters from
`transactions[0]` (a panic when the sequence is empty), resolve the
fork URL, construct one shared execution context sized by the first
element, then drive the loop over the whole sequence. -/
def simulate_bundle {σ : Type} (engine : Engine σ) (transactions : List SimulationRequest)
    (config : Config) : SimOutcome (List SimulationResponse) :=
  match transactions with
  | [] => SimOutcome.panic
  | first :: _ =>
    match chain_id_to_fork_url first.chain_id config.alchemy_key with
    | Except.error e => SimOutcome.err e
    | Except.ok fork_url =>
      let evm := engine.new none fork_url first.block_number first.gas_limit
        true config.etherscan_key
      bundle_loop engine first.chain_id first.block_number evm transactions

/-! ### Concrete fixtures used to evaluate the embedding -/

/-- A configuration with a dummy provider credential. -/
def cfg0 : Config := { alchemy_key := "KEY", etherscan_key := none }

/-- A well-formed mainnet request pinned at block 100. -/
def req1 : SimulationRequest :=
  { chain_id := 1, from_ := 10, to_ := 11, data := none, gas_limit := 21000,
    value := none, block_number := some 100, format_trace := none }

/-- `req1` with a diverging chain identifier (but a resolvable one). -/
def reqChain5 : SimulationRequest := { req1 with chain_id := 5 }

/-- `req1` with a diverging chain identifier. -/
def reqChainDiff : SimulationRequest := { req1 with chain_id := 137 }

/-- `req1` with a diverging block height. -/
def reqBlockDiff : SimulationRequest := { req1 with block_number := some 101 }

/-- A successful engine outcome with a two-node trace arena. -/
def result0 : CallRawResult :=
  { gas_used := 21000, block_number := 100, success := true,
    trace := some ⟨[⟨CallKind.Call, 10, 11, 7⟩, ⟨CallKind.StaticCall, 11, 12, 0⟩]⟩,
    logs := [3], exit_reason := 0, formatted_trace := none }

/-- A reverted (but infrastructure-successful) engine outcome. -/
def resultRevert : CallRawResult :=
  { gas_used := 30000, block_number := 100, success := false,
    trace := none, logs := [], exit_reason := 2, formatted_trace := none }

/-- An engine whose calls always succeed; its state counts committing calls. -/
def engineOk : Engine Nat :=
  { new := fun _ _ _ _ _ _ => 0
    call_raw := fun _ _ _ _ _ _ => Except.ok result0
    call_raw_committing := fun s _ _ _ _ _ _ => Except.ok (result0, s + 1) }

/-- An engine whose calls always fail at the infrastructure level. -/
def engineFail : Engine Nat :=
  { new := fun _ _ _ _ _ _ => 0
    call_raw := fun _ _ _ _ _ _ => Except.error Rejection.StateFetchError
    call_raw_committing := fun _ _ _ _ _ _ _ => Except.error Rejection.StateFetchError }

/-- An engine whose first committing call reverts (logical failure,
infrastructure success) and whose later calls succeed. -/
def engineRevertFirst : Engine Nat :=
  { new := fun _ _ _ _ _ _ => 0
    call_raw := fun _ _ _ _ _ _ => Except.ok result0
    call_raw_committing := fun s _ _ _ _ _ _ =>
      if s = 0 then Except.ok (resultRevert, s + 1) else Except.ok (result0, s + 1) }

/-! ### Helper lemmas -/

/-- Appending to a string with non-empty data yields a non-empty string. -/
lemma append_ne_empty (p k : String) (hp : p.data ≠ []) : p ++ k ≠ "" := by
  intro h
  have h2 : p.data ++ k.data = ([] : List Char) := by
    simpa using congrArg String.data h
  exact hp (List.append_eq_nil.mp h2).1

/-- `run` in read-only mode: once the value parses, it is exactly one
`call_raw` invocation, with the context state returned unchanged. -/
lemma run_false_eq {σ : Type} (engine : Engine σ) (evm : σ) (t : SimulationRequest)
    (v : Option Nat) (hv : parse_value t.value = Except.ok v) :
    run engine evm t false =
      match engine.call_raw evm t.from_ t.to_ v t.data (t.format_trace.getD false) with
      | Except.error e => Except.error e
      | Except.ok result => Except.ok (assemble_response result, evm) := by
  rw [run, hv]
  rfl

/-- `run` in committing mode: once the value parses, it is exactly one
`call_raw_committing` invocation, threading the successor state. -/
lemma run_true_eq {σ : Type} (engine : Engine σ) (evm : σ) (t : SimulationRequest)
    (v : Option Nat) (hv : parse_value t.value = Except.ok v) :
    run engine evm t true =
      match engine.call_raw_committing evm t.from_ t.to_ v t.data t.gas_limit
          (t.format_trace.getD false) with
      | Except.error e => Except.error e
      | Except.ok (result, evm2) => Except.ok (assemble_response result, evm2) := by
  rw [run, hv]
  rfl

/-- Every response `run` produces carries simulation identifier 1. -/
lemma run_ok_simulation_id {σ : Type} (engine : Engine σ) (evm : σ)
    (t : SimulationRequest) (c : Bool) (r : SimulationResponse) (evm2 : σ)
    (h : run engine evm t c = Except.ok (r, evm2)) : r.simulation_id = 1 := by
  cases hv : parse_value t.value with
  | error e => rw [run, hv] at h; exact absurd h (by simp)
  | ok v =>
    cases c with
    | false =>
      rw [run_false_eq engine evm t v hv] at h
      cases hcall : engine.call_raw evm t.from_ t.to_ v t.data (t.format_trace.getD false) with
      | error e => rw [hcall] at h; exact absurd h (by simp)
      | ok result =>
        simp only [hcall, Except.ok.injEq, Prod.mk.injEq] at h
        rw [← h.1]
        rfl
    | true =>
      rw [run_true_eq engine evm t v hv] at h
      cases hcall : engine.call_raw_committing evm t.from_ t.to_ v t.data t.gas_limit
          (t.format_trace.getD false) with
      | error e => rw [hcall] at h; exact absurd h (by simp)
      | ok p =>
        obtain ⟨result, evm3⟩ := p
        simp only [hcall, Except.ok.injEq, Prod.mk.injEq] at h
        rw [← h.1]
        rfl

/-- The bundle loop never panics. -/
lemma bundle_loop_ne_panic {σ : Type} (engine : Engine σ) (fcid : Nat)
    (fbn : Option Nat) (l : List SimulationRequest) :
    ∀ evm : σ, bundle_loop engine fcid fbn evm l ≠ SimOutcome.panic := by
  induction l with
  | nil => intro evm h; simp [bundle_loop] at h
  | cons t rest ih =>
    intro evm h
    rw [bundle_loop] at h
    by_cases hc : t.chain_id ≠ fcid
    · rw [if_pos hc] at h; exact absurd h (by simp)
    · rw [if_neg hc] at h
      by_cases hb : t.block_number ≠ fbn
      · rw [if_pos hb] at h; exact absurd h (by simp)
      · rw [if_neg hb] at h
        cases hrun : run engine evm t true with
        | error e => rw [hrun] at h; exact absurd h (by simp)
        | ok p =>
          obtain ⟨r, evm2⟩ := p
          simp only [hrun] at h
          cases hloop : bundle_loop engine fcid fbn evm2 rest with
          | panic => exact ih evm2 hloop
          | err e => rw [hloop] at h; exact absurd h (by simp)
          | ok responses => rw [hloop] at h; exact absurd h (by simp)

/-- A successful bundle loop is index-aligned with its input and is
exactly the chain of committing `run` steps: there is a sequence of
context states, starting at the given context, such that step `i`
executes element `i` against state `i` and leaves state `i + 1`. -/
lemma bundle_loop_ok_chain {σ : Type} (engine : Engine σ) (fcid : Nat)
    (fbn : Option Nat) (l : List SimulationRequest) :
    ∀ (evm : σ) (rs : List SimulationResponse),
      bundle_loop engine fcid fbn evm l = SimOutcome.ok rs →
      rs.length = l.length ∧
      ∃ states : Nat → σ, states 0 = evm ∧
        ∀ (i : Nat) (hi : i < l.length) (hi2 : i < rs.length),
          run engine (states i) (l.get ⟨i, hi⟩) true =
            Except.ok (rs.get ⟨i, hi2⟩, states (i + 1)) := by
  induction l with
  | nil =>
    intro evm rs h
    simp only [bundle_loop, SimOutcome.ok.injEq] at h
    subst h
    exact ⟨rfl, fun _ => evm, rfl, fun i hi _ => absurd hi (Nat.not_lt_zero i)⟩
  | cons t rest ih =>
    intro evm rs h
    rw [bundle_loop] at h
    by_cases hc : t.chain_id ≠ fcid
    · rw [if_pos hc] at h; exact absurd h (by simp)
    · rw [if_neg hc] at h
      by_cases hb : t.block_number ≠ fbn
      · rw [if_pos hb] at h; exact absurd h (by simp)
      · rw [if_neg hb] at h
        cases hrun : run engine evm t true with
        | error e => rw [hrun] at h; exact absurd h (by simp)
        | ok p =>
          obtain ⟨response, evm2⟩ := p
          simp only [hrun] at h
          cases hloop : bundle_loop engine fcid fbn evm2 rest with
          | panic => rw [hloop] at h; exact absurd h (by simp)
          | err e => rw [hloop] at h; exact absurd h (by simp)
          | ok responses =>
            rw [hloop] at h
            simp only [SimOutcome.ok.injEq] at h
            subst h
            obtain ⟨hlen, states2, hs0, hstep⟩ := ih evm2 responses hloop
            refine ⟨by simp [hlen], fun i => match i with | 0 => evm | Nat.succ n => states2 n,
              rfl, ?_⟩
            intro i hi hi2
            cases i with
            | zero =>
              show run engine evm t true = Except.ok (response, states2 0)
              rw [hs0]
              exact hrun
            | succ n =>
              exact hstep n (Nat.lt_of_succ_lt_succ hi) (Nat.lt_of_succ_lt_succ hi2)

/-- A prefix of elements that all match the bundle parameters and all
execute successfully is absorbed: if the remaining tail always fails
with error `e`, the whole loop fails with error `e`. -/
lemma bundle_loop_prefix_err {σ : Type} (engine : Engine σ) (fcid : Nat)
    (fbn : Option Nat) (e : Rejection) (tail : List SimulationRequest)
    (htail : ∀ evm : σ, bundle_loop engine fcid fbn evm tail = SimOutcome.err e) :
    ∀ pre : List SimulationRequest,
      (∀ p ∈ pre, p.chain_id = fcid ∧ p.block_number = fbn) →
      (∀ (evm : σ), ∀ p ∈ pre, ∃ out, run engine evm p true = Except.ok out) →
      ∀ evm : σ, bundle_loop engine fcid fbn evm (pre ++ tail) = SimOutcome.err e := by
  intro pre
  induction pre with
  | nil => intro _ _ evm; simpa using htail evm
  | cons p pre ih =>
    intro hmatch hruns evm
    rw [List.cons_append, bundle_loop]
    obtain ⟨hc, hb⟩ := hmatch p (List.mem_cons_self p pre)
    rw [if_neg (by simp [hc]), if_neg (by simp [hb])]
    obtain ⟨out, hout⟩ := hruns evm p (List.mem_cons_self p pre)
    obtain ⟨r, evm2⟩ := out
    rw [hout]
    show (match bundle_loop engine fcid fbn evm2 (pre ++ tail) with
      | SimOutcome.ok responses => SimOutcome.ok (r :: responses)
      | other => other) = SimOutcome.err e
    rw [ih (fun q hq => hmatch q (List.mem_cons_of_mem p hq))
      (fun evm3 q hq => hruns evm3 q (List.mem_cons_of_mem p hq)) evm2]

/-! ### Claim theorems -/

/-- Claim C6: the value normalizer maps an absent value string to an
absent value; a present string starting with the hex prefix is parsed
as hexadecimal ("0x10" yields 16) and fails with the hex rejection on
malformed hex ("0xg"); any other present string is parsed as decimal
("16" yields 16) and fails with the decimal rejection on malformed
decimal ("1.5"); no sign is accepted. The two accumulation clauses
state that the parsers genuinely carry positional base-16 and base-10
semantics. -/
theorem value_normalizer_contract :
    parse_value none = Except.ok none ∧
    parse_value (some ("0x10")) = Except.ok (some 16) ∧
    parse_value (some ("16")) = Except.ok (some 16) ∧
    parse_value (some ("0xg")) = Except.error Rejection.FromHexError ∧
    parse_value (some ("1.5")) = Except.error Rejection.FromDecStrError ∧
    (∀ (cs : List Char) (c : Char) (n d : Nat),
      hexDigits cs = Except.ok n → hexDigit? c = some d →
      hexDigits (cs ++ [c]) = Except.ok (n * 16 + d)) ∧
    (∀ (cs : List Char) (c : Char) (n d : Nat),
      decDigits cs = Except.ok n → decDigit? c = some d → n * 10 + d < 2 ^ 256 →
      decDigits (cs ++ [c]) = Except.ok (n * 10 + d)) ∧
    (∀ (c : Char) (cs : List Char), c = '-' ∨ c = '+' →
      parse_value (some (String.mk (c :: cs))) = Except.error Rejection.FromDecStrError) := by
  refine ⟨by decide, by decide, by decide, by decide, by decide, ?_, ?_, ?_⟩
  · intro cs c n d hcs hc
    rw [hexDigits, List.foldlM_append]
    rw [hexDigits] at hcs
    rw [hcs]
    show List.foldlM
      (fun acc c =>
        match hexDigit? c with
        | some d => Except.ok (acc * 16 + d)
        | none => Except.error FromHexErr.InvalidHexCharacter)
      n [c] = Except.ok (n * 16 + d)
    simp [List.foldlM_cons, List.foldlM_nil, hc]
  · intro cs c n d hcs hc hlt
    rw [decDigits, List.foldlM_append]
    rw [decDigits] at hcs
    rw [hcs]
    show List.foldlM
      (fun acc c =>
        match decDigit? c with
        | some d =>
          if acc * 10 + d < 2 ^ 256 then Except.ok (acc * 10 + d)
          else Except.error FromDecStrErr.InvalidLength
        | none => Except.error FromDecStrErr.InvalidCharacter)
      n [c] = Except.ok (n * 10 + d)
    simp only [List.foldlM_cons, List.foldlM_nil, hc]
    rw [if_pos hlt]
    rfl
  · intro c cs h
    rcases h with rfl | rfl <;> rfl

/-- Witness for C6: the sign clause evaluated at the concrete string
built from the characters of "-5". -/
theorem value_normalizer_contract_witness :
    parse_value (some (String.mk ('-' :: ['5']))) = Except.error Rejection.FromDecStrError :=
  value_normalizer_contract.2.2.2.2.2.2.2 '-' ['5'] (Or.inl rfl)

/-- Claim C7: for every chain identifier in the supported set the
resolver returns a non-empty fork endpoint URL, and for every other
identifier it fails with the no-URL rejection; the resolution is a
pure lookup. -/
theorem chain_resolver_contract (alchemy_key : String) (chain_id : Nat) :
    (chain_id ∈ supported_chain_ids →
      ∃ url, chain_id_to_fork_url chain_id alchemy_key = Except.ok url ∧ url ≠ "") ∧
    (chain_id ∉ supported_chain_ids →
      chain_id_to_fork_url chain_id alchemy_key = Except.error Rejection.NoURLForChainIdError) := by
  constructor
  · intro h
    fin_cases h <;>
      first
        | exact ⟨_, rfl, by decide⟩
        | exact ⟨_, rfl, append_ne_empty _ _ (by decide)⟩
  · intro h
    simp only [supported_chain_ids, List.mem_cons, not_or] at h
    unfold chain_id_to_fork_url
    split <;> simp_all

/-- Witness for C7: chain identifier 1 (supported) resolves to a
non-empty URL; chain identifier 2 (unsupported) is rejected. -/
theorem chain_resolver_contract_witness :
    (∃ url, chain_id_to_fork_url 1 ("KEY") = Except.ok url ∧ url ≠ "") ∧
    chain_id_to_fork_url 2 ("KEY") = Except.error Rejection.NoURLForChainIdError :=
  ⟨(chain_resolver_contract ("KEY") 1).1 (by decide),
    (chain_resolver_contract ("KEY") 2).2 (by decide)⟩

/-- Claim C10: hex-prefix detection is an exact, case-sensitive match
on the leading characters "0x": "0X10" is not detected as hex and is
parsed as decimal, failing with the decimal rejection; any string
whose first two characters are not exactly '0' then 'x' goes to the
decimal parser. -/
theorem hex_prefix_exact_case_sensitive :
    starts_with_0x ("0X10") = false ∧
    parse_value (some ("0X10")) = Except.error Rejection.FromDecStrError ∧
    (∀ (c1 c2 : Char) (cs : List Char), c1 ≠ '0' ∨ c2 ≠ 'x' →
      starts_with_0x (String.mk (c1 :: c2 :: cs)) = false) ∧
    (∀ s : String, starts_with_0x s = false →
      parse_value (some s) =
        match uint_from_dec_str s with
        | Except.ok n => Except.ok (some n)
        | Except.error _ => Except.error Rejection.FromDecStrError) := by
  refine ⟨by decide, by decide, ?_, ?_⟩
  · intro c1 c2 cs h
    rw [starts_with_0x]
    split
    · rename_i heq
      injection heq with h1 h2
      injection h2 with h2 h3
      rcases h with hne | hne
      · exact absurd h1 hne
      · exact absurd h2 hne
    · rfl
  · intro s hs
    rw [parse_value, if_neg (by simp [hs])]

/-- Witness for C10: the prefix-rejection clause evaluated at the
concrete characters of "0X10". -/
theorem hex_prefix_exact_case_sensitive_witness :
    starts_with_0x (String.mk ('0' :: 'X' :: ['1', '0'])) = false :=
  hex_prefix_exact_case_sensitive.2.2.1 '0' 'X' ['1', '0'] (Or.inr (by decide))

/-- Helper for witnesses: on `engineOk`, `run` in committing mode
succeeds on `req1` from every context state. -/
lemma run_engineOk_ok : ∀ (evm : Nat), ∀ p ∈ [req1], ∃ out, run engineOk evm p true = Except.ok out := by
  intro evm p hp
  rw [List.mem_singleton] at hp
  subst hp
  exact ⟨(assemble_response result0, evm + 1), rfl⟩

/-- Claim C1: single mode constructs one execution context and invokes
the read-only primitive once; bundle mode constructs exactly one
context shared by all elements and invokes the committing primitive
for each element in input order, returning one response per element
(index-aligned), element i executing against the state left by
elements 0..i-1 on top of the fork baseline. -/
theorem orchestration_modes_and_state_carry {σ : Type} (engine : Engine σ) :
    (∀ (t : SimulationRequest) (config : Config) (url : String),
      chain_id_to_fork_url t.chain_id config.alchemy_key = Except.ok url →
      simulate engine t config =
        match run engine (engine.new none url t.block_number t.gas_limit true
            config.etherscan_key) t false with
        | Except.error e => SimOutcome.err e
        | Except.ok (r, _) => SimOutcome.ok r) ∧
    (∀ (evm : σ) (t : SimulationRequest) (v : Option Nat),
      parse_value t.value = Except.ok v →
      run engine evm t false =
        match engine.call_raw evm t.from_ t.to_ v t.data (t.format_trace.getD false) with
        | Except.error e => Except.error e
        | Except.ok result => Except.ok (assemble_response result, evm)) ∧
    (∀ (evm : σ) (t : SimulationRequest) (v : Option Nat),
      parse_value t.value = Except.ok v →
      run engine evm t true =
        match engine.call_raw_committing evm t.from_ t.to_ v t.data t.gas_limit
            (t.format_trace.getD false) with
        | Except.error e => Except.error e
        | Except.ok (result, evm2) => Except.ok (assemble_response result, evm2)) ∧
    (∀ (first : SimulationRequest) (rest : List SimulationRequest) (config : Config)
        (url : String) (rs : List SimulationResponse),
      chain_id_to_fork_url first.chain_id config.alchemy_key = Except.ok url →
      simulate_bundle engine (first :: rest) config = SimOutcome.ok rs →
      rs.length = (first :: rest).length ∧
      ∃ states : Nat → σ,
        states 0 = engine.new none url first.block_number first.gas_limit true
          config.etherscan_key ∧
        ∀ (i : Nat) (hi : i < (first :: rest).length) (hi2 : i < rs.length),
          run engine (states i) ((first :: rest).get ⟨i, hi⟩) true =
            Except.ok (rs.get ⟨i, hi2⟩, states (i + 1))) := by
  refine ⟨?_, run_false_eq engine, run_true_eq engine, ?_⟩
  · intro t config url hurl
    rw [simulate]
    simp only [hurl]
  · intro first rest config url rs hurl hok
    rw [simulate_bundle] at hok
    simp only [hurl] at hok
    exact bundle_loop_ok_chain engine first.chain_id first.block_number (first :: rest) _ rs hok

/-- Witness for C1: concrete single-mode reply and bundle index
alignment on `engineOk`. -/
theorem orchestration_modes_and_state_carry_witness :
    simulate engineOk req1 cfg0 = SimOutcome.ok (assemble_response result0) ∧
    ([assemble_response result0, assemble_response result0] : List SimulationResponse).length =
      ([req1, req1] : List SimulationRequest).length :=
  ⟨((orchestration_modes_and_state_carry engineOk).1 req1 cfg0
      ("https://eth-mainnet.g.alchemy.com/v2/" ++ cfg0.alchemy_key) rfl).trans (by decide),
    ((orchestration_modes_and_state_carry engineOk).2.2.2 req1 [req1] cfg0
      ("https://eth-mainnet.g.alchemy.com/v2/" ++ cfg0.alchemy_key)
      [assemble_response result0, assemble_response result0] rfl (by decide)).1⟩

/-- Claim C2 counterexample: in a two-element bundle whose elements
differ in chain identifier, the first element is executed before the
divergence is checked: with an engine that fails every execution, the
outcome is the engine's infrastructure error, not the divergence
rejection — so validation does not occur before execution. -/
theorem validation_after_construction_cex :
    reqChain5.chain_id ≠ req1.chain_id ∧
    simulate_bundle engineFail [req1, reqChain5] cfg0 = SimOutcome.err Rejection.StateFetchError ∧
    Rejection.StateFetchError ≠ Rejection.MultipleChainIdsError := by decide

/-- Claim C2 amended: bundle divergence validation is interleaved with
execution: in a two-element bundle whose second element diverges in
chain identifier, the outcome is exactly the outcome of executing the
first element, followed (only on its success) by the divergence
rejection — the context is constructed and the first element executed
before the bundle-level validation error can surface. -/
theorem validation_interleaved_with_execution {σ : Type} (engine : Engine σ)
    (config : Config) (a b : SimulationRequest) (hab : b.chain_id ≠ a.chain_id) :
    simulate_bundle engine [a, b] config =
      match chain_id_to_fork_url a.chain_id config.alchemy_key with
      | Except.error e => SimOutcome.err e
      | Except.ok url =>
        match run engine (engine.new none url a.block_number a.gas_limit true
            config.etherscan_key) a true with
        | Except.error e => SimOutcome.err e
        | Except.ok _ => SimOutcome.err Rejection.MultipleChainIdsError := by
  simp only [simulate_bundle]
  cases hurl : chain_id_to_fork_url a.chain_id config.alchemy_key with
  | error e => rfl
  | ok url =>
    show bundle_loop engine a.chain_id a.block_number
        (engine.new none url a.block_number a.gas_limit true config.etherscan_key) [a, b] =
      match run engine (engine.new none url a.block_number a.gas_limit true
          config.etherscan_key) a true with
      | Except.error e => SimOutcome.err e
      | Except.ok _ => SimOutcome.err Rejection.MultipleChainIdsError
    rw [bundle_loop]
    rw [if_neg (by simp), if_neg (by simp)]
    cases hrun : run engine (engine.new none url a.block_number a.gas_limit true
        config.etherscan_key) a true with
    | error e => simp only [hrun]
    | ok p =>
      obtain ⟨r, evm2⟩ := p
      simp only [hrun]
      rw [bundle_loop, if_pos hab]

/-- Witness for C2's amended theorem at a concrete divergent bundle. -/
theorem validation_interleaved_with_execution_witness :
    simulate_bundle engineOk [req1, reqChain5] cfg0 =
      match chain_id_to_fork_url req1.chain_id cfg0.alchemy_key with
      | Except.error e => SimOutcome.err e
      | Except.ok url =>
        match run engineOk (engineOk.new none url req1.block_number req1.gas_limit true
            cfg0.etherscan_key) req1 true with
        | Except.error e => SimOutcome.err e
        | Except.ok _ => SimOutcome.err Rejection.MultipleChainIdsError :=
  validation_interleaved_with_execution engineOk cfg0 req1 reqChain5 (by decide)

/-- Claim C3 counterexample: a two-element bundle reply on a
successful engine carries two responses with equal simulation
identifiers, so identifiers are not unique within a single reply. -/
theorem simulation_id_not_unique_cex :
    ∃ rs : List SimulationResponse,
      simulate_bundle engineOk [req1, req1] cfg0 = SimOutcome.ok rs ∧
      rs.length = 2 ∧
      ¬ rs.Pairwise (fun r1 r2 => r1.simulation_id ≠ r2.simulation_id) :=
  ⟨[assemble_response result0, assemble_response result0], by decide, by decide, by decide⟩

/-- Claim C3 amended: every response the orchestrator produces —
single mode or any position of a bundle reply — carries the constant
simulation identifier 1; in particular identifiers repeat in any
bundle reply of two or more responses. -/
theorem simulation_id_always_one {σ : Type} (engine : Engine σ) (config : Config) :
    (∀ t r, simulate engine t config = SimOutcome.ok r → r.simulation_id = 1) ∧
    (∀ txs rs, simulate_bundle engine txs config = SimOutcome.ok rs →
      ∀ r ∈ rs, r.simulation_id = 1) := by
  constructor
  · intro t r h
    rw [simulate] at h
    cases hurl : chain_id_to_fork_url t.chain_id config.alchemy_key with
    | error e => simp [hurl] at h
    | ok url =>
      simp only [hurl] at h
      cases hrun : run engine (engine.new none url t.block_number t.gas_limit true
          config.etherscan_key) t false with
      | error e => simp [hrun] at h
      | ok p =>
        obtain ⟨resp, evm2⟩ := p
        simp only [hrun, SimOutcome.ok.injEq] at h
        subst h
        exact run_ok_simulation_id engine _ t false resp evm2 hrun
  · intro txs rs h r hr
    cases txs with
    | nil => rw [simulate_bundle] at h; exact absurd h (by simp)
    | cons first rest =>
      rw [simulate_bundle] at h
      cases hurl : chain_id_to_fork_url first.chain_id config.alchemy_key with
      | error e => simp [hurl] at h
      | ok url =>
        simp only [hurl] at h
        obtain ⟨hlen, states, -, hstep⟩ :=
          bundle_loop_ok_chain engine first.chain_id first.block_number (first :: rest) _ rs h
        obtain ⟨i, hget⟩ := List.mem_iff_get.mp hr
        have hi : (i : Nat) < (first :: rest).length := hlen ▸ i.isLt
        have h1 := run_ok_simulation_id engine (states i) ((first :: rest).get ⟨i, hi⟩) true
          (rs.get ⟨i, i.isLt⟩) (states (i + 1)) (hstep i hi i.isLt)
        rw [← hget]
        exact h1

/-- Witness for C3's amended theorem: a concrete bundle response
carries identifier 1. -/
theorem simulation_id_always_one_witness :
    (assemble_response result0).simulation_id = 1 :=
  (simulation_id_always_one engineOk cfg0).2 [req1, req1]
    [assemble_response result0, assemble_response result0] (by decide)
    (assemble_response result0) (by decide)

/-- Claim C4 counterexample: in a bundle where a block-height
divergence occurs at an earlier element than a chain-identifier
divergence, the simulation fails with the block rejection even though
some element's chain identifier differs from the first element's. -/
theorem first_divergence_cex :
    reqChainDiff.chain_id ≠ req1.chain_id ∧
    simulate_bundle engineOk [req1, reqBlockDiff, reqChainDiff] cfg0 =
      SimOutcome.err Rejection.MultipleBlockNumbersError ∧
    Rejection.MultipleBlockNumbersError ≠ Rejection.MultipleChainIdsError := by decide

/-- Claim C4 amended: the rejection is decided by the first divergent
element in input order, checking chain identifier before block height
at that element (given that all earlier elements match the bundle
parameters and execute without error): chain divergence there yields
the chain rejection, block divergence (with equal chain) the block
rejection; both rejections are bare markers naming no element. -/
theorem first_divergence_decides_error {σ : Type} (engine : Engine σ) (config : Config)
    (first : SimulationRequest) (pre : List SimulationRequest) (t : SimulationRequest)
    (rest : List SimulationRequest) (url : String)
    (hurl : chain_id_to_fork_url first.chain_id config.alchemy_key = Except.ok url)
    (hpre : ∀ p ∈ first :: pre, p.chain_id = first.chain_id ∧ p.block_number = first.block_number)
    (hruns : ∀ (evm : σ), ∀ p ∈ first :: pre, ∃ out, run engine evm p true = Except.ok out) :
    (t.chain_id ≠ first.chain_id →
      simulate_bundle engine (first :: (pre ++ t :: rest)) config =
        SimOutcome.err Rejection.MultipleChainIdsError) ∧
    (t.chain_id = first.chain_id → t.block_number ≠ first.block_number →
      simulate_bundle engine (first :: (pre ++ t :: rest)) config =
        SimOutcome.err Rejection.MultipleBlockNumbersError) := by
  constructor
  · intro hchain
    rw [simulate_bundle]
    simp only [hurl]
    exact bundle_loop_prefix_err engine first.chain_id first.block_number _ (t :: rest)
      (fun evm => by rw [bundle_loop, if_pos hchain]) (first :: pre) hpre hruns _
  · intro hchain hblock
    rw [simulate_bundle]
    simp only [hurl]
    exact bundle_loop_prefix_err engine first.chain_id first.block_number _ (t :: rest)
      (fun evm => by rw [bundle_loop, if_neg (by simp [hchain]), if_pos hblock])
      (first :: pre) hpre hruns _

/-- Witness for C4's amended theorem: a chain-divergent and a
block-divergent two-element bundle on `engineOk`. -/
theorem first_divergence_decides_error_witness :
    simulate_bundle engineOk [req1, reqChain5] cfg0 =
      SimOutcome.err Rejection.MultipleChainIdsError ∧
    simulate_bundle engineOk [req1, reqBlockDiff] cfg0 =
      SimOutcome.err Rejection.MultipleBlockNumbersError :=
  ⟨(first_divergence_decides_error engineOk cfg0 req1 [] reqChain5 []
      ("https://eth-mainnet.g.alchemy.com/v2/" ++ cfg0.alchemy_key) rfl (by decide)
      run_engineOk_ok).1 (by decide),
    (first_divergence_decides_error engineOk cfg0 req1 [] reqBlockDiff []
      ("https://eth-mainnet.g.alchemy.com/v2/" ++ cfg0.alchemy_key) rfl (by decide)
      run_engineOk_ok).2 (by decide) (by decide)⟩

/-- Claim C5: inside a bundle, an infrastructure failure of an
execution step aborts the remaining bundle and surfaces that error,
while a logical revert (a response with success = false) is recorded
as a normal response and execution continues with the next element. -/
theorem infra_abort_revert_continue {σ : Type} (engine : Engine σ) :
    (∀ (fcid : Nat) (fbn : Option Nat) (evm : σ) (t : SimulationRequest)
        (rest : List SimulationRequest) (e : Rejection),
      t.chain_id = fcid → t.block_number = fbn →
      run engine evm t true = Except.error e →
      bundle_loop engine fcid fbn evm (t :: rest) = SimOutcome.err e) ∧
    (∀ (fcid : Nat) (fbn : Option Nat) (evm : σ) (t : SimulationRequest)
        (rest : List SimulationRequest) (r : SimulationResponse) (evm2 : σ),
      t.chain_id = fcid → t.block_number = fbn →
      run engine evm t true = Except.ok (r, evm2) →
      bundle_loop engine fcid fbn evm (t :: rest) =
        match bundle_loop engine fcid fbn evm2 rest with
        | SimOutcome.ok responses => SimOutcome.ok (r :: responses)
        | other => other) ∧
    (∀ (fcid : Nat) (fbn : Option Nat) (evm : σ) (t : SimulationRequest)
        (rest : List SimulationRequest) (r : SimulationResponse) (evm2 : σ)
        (rs : List SimulationResponse),
      t.chain_id = fcid → t.block_number = fbn →
      run engine evm t true = Except.ok (r, evm2) →
      r.success = false →
      bundle_loop engine fcid fbn evm2 rest = SimOutcome.ok rs →
      bundle_loop engine fcid fbn evm (t :: rest) = SimOutcome.ok (r :: rs)) ∧
    (∀ (config : Config) (t : SimulationRequest) (rest : List SimulationRequest)
        (url : String) (e : Rejection),
      chain_id_to_fork_url t.chain_id config.alchemy_key = Except.ok url →
      run engine (engine.new none url t.block_number t.gas_limit true config.etherscan_key)
          t true = Except.error e →
      simulate_bundle engine (t :: rest) config = SimOutcome.err e) := by
  refine ⟨?_, ?_, ?_, ?_⟩
  · intro fcid fbn evm t rest e hc hb hrun
    rw [bundle_loop, if_neg (by simp [hc]), if_neg (by simp [hb])]
    simp only [hrun]
  · intro fcid fbn evm t rest r evm2 hc hb hrun
    rw [bundle_loop, if_neg (by simp [hc]), if_neg (by simp [hb])]
    simp only [hrun]
  · intro fcid fbn evm t rest r evm2 rs hc hb hrun hsucc hloop
    rw [bundle_loop, if_neg (by simp [hc]), if_neg (by simp [hb])]
    simp only [hrun, hloop]
  · intro config t rest url e hurl hrun
    rw [simulate_bundle]
    simp only [hurl]
    rw [bundle_loop, if_neg (by simp), if_neg (by simp)]
    simp only [hrun]

/-- Witness for C5: abort on `engineFail`, continuation past a revert
on `engineRevertFirst`. -/
theorem infra_abort_revert_continue_witness :
    bundle_loop engineFail 1 (some 100) 0 [req1] = SimOutcome.err Rejection.StateFetchError ∧
    bundle_loop engineRevertFirst 1 (some 100) 0 [req1, req1] =
      SimOutcome.ok [assemble_response resultRevert, assemble_response result0] ∧
    simulate_bundle engineFail [req1] cfg0 = SimOutcome.err Rejection.StateFetchError :=
  ⟨(infra_abort_revert_continue engineFail).1 1 (some 100) 0 req1 []
      Rejection.StateFetchError rfl rfl rfl,
    (infra_abort_revert_continue engineRevertFirst).2.2.1 1 (some 100) 0 req1 [req1]
      (assemble_response resultRevert) 1 [assemble_response result0] rfl rfl rfl rfl (by decide),
    (infra_abort_revert_continue engineFail).2.2.2 cfg0 req1 []
      ("https://eth-mainnet.g.alchemy.com/v2/" ++ cfg0.alchemy_key)
      Rejection.StateFetchError rfl rfl⟩

/-- Claim C8: the response assembler flattens the raw call-trace arena
one-to-one and order-preserving into CallTrace records, and passes gas
used, success, exit-status code, logs and the formatted-trace string
through unchanged. -/
theorem response_assembler_passthrough {σ : Type} (engine : Engine σ) (evm : σ)
    (t : SimulationRequest) (v : Option Nat) (result : CallRawResult) (evm2 : σ)
    (hv : parse_value t.value = Except.ok v)
    (hcall : engine.call_raw_committing evm t.from_ t.to_ v t.data t.gas_limit
      (t.format_trace.getD false) = Except.ok (result, evm2)) :
    run engine evm t true = Except.ok (assemble_response result, evm2) ∧
    (assemble_response result).trace.length = (result.trace.getD ⟨[]⟩).arena.length ∧
    (∀ (i : Nat) (h1 : i < (result.trace.getD ⟨[]⟩).arena.length)
        (h2 : i < (assemble_response result).trace.length),
      (assemble_response result).trace.get ⟨i, h2⟩ =
        CallTrace.fromNode ((result.trace.getD ⟨[]⟩).arena.get ⟨i, h1⟩)) ∧
    (assemble_response result).gas_used = result.gas_used ∧
    (assemble_response result).success = result.success ∧
    (assemble_response result).exit_reason = result.exit_reason ∧
    (assemble_response result).logs = result.logs ∧
    (assemble_response result).formatted_trace = result.formatted_trace := by
  refine ⟨?_, by simp [assemble_response], ?_, rfl, rfl, rfl, rfl, rfl⟩
  · rw [run_true_eq engine evm t v hv]
    simp only [hcall]
  · intro i h1 h2
    simp [assemble_response, List.get_eq_getElem, List.getElem_map]

/-- Witness for C8: `engineOk`'s outcome (a two-node arena) assembled
on a concrete committing run. -/
theorem response_assembler_passthrough_witness :
    run engineOk 0 req1 true = Except.ok (assemble_response result0, 1) :=
  (response_assembler_passthrough engineOk 0 req1 none result0 1 rfl rfl).1

/-- Claim C9: bundle simulation of the empty sequence indexes the
first element out of bounds — a panic, not a structured rejection;
every non-empty bundle avoids the panic entirely. -/
theorem empty_bundle_panics {σ : Type} (engine : Engine σ) (config : Config)
    (txs : List SimulationRequest) (h : txs ≠ []) :
    simulate_bundle engine ([] : List SimulationRequest) config = SimOutcome.panic ∧
    simulate_bundle engine txs config ≠ SimOutcome.panic := by
  refine ⟨rfl, ?_⟩
  cases txs with
  | nil => exact absurd rfl h
  | cons first rest =>
    intro hpanic
    rw [simulate_bundle] at hpanic
    cases hurl : chain_id_to_fork_url first.chain_id config.alchemy_key with
    | error e => simp [hurl] at hpanic
    | ok url =>
      simp only [hurl] at hpanic
      exact bundle_loop_ne_panic engine first.chain_id first.block_number (first :: rest) _ hpanic

/-- Witness for C9 at a concrete engine, configuration and non-empty
bundle. -/
theorem empty_bundle_panics_witness :
    simulate_bundle engineOk ([] : List SimulationRequest) cfg0 = SimOutcome.panic ∧
    simulate_bundle engineOk [req1] cfg0 ≠ SimOutcome.panic :=
  empty_bundle_panics engineOk cfg0 [req1] (by decide)

end TxSim
